import Mathlib

/-!
Verification development for the SPS-Jaya backend (Go).

The repository has two revisions of the same service:
- revision A: src/main.go (direct public-IP Postgres connection, retrying
  ping loop in initDB, health endpoint that pings the database);
- revision B: src/unnamed/part_001 (Cloud SQL connector, log.Fatal on
  startup failures, single ping, static health endpoint).

Definitions below are shallow embeddings of the Go functions; external
effects (bcrypt failure, database I/O failure, ping outcomes, the upstream
itinerary service) are passed in explicitly as oracle parameters so that
the handlers stay pure and executable.
-/

namespace SPS

/-- A gin JSON response: HTTP status plus the `gin.H` body rendered as an
association list of string keys to string values (every body produced by
the embedded handlers has only string values). -/
structure HttpResponse where
  status : Nat
  body : List (String × String)
deriving Repr, DecidableEq

/-- The request body both `signupHandler` and `signinHandler` bind:
`{username, password}` (struct `User` in revision A, the anonymous struct
in revision B; the extra `ID` field of revision A is never read by the
handlers). -/
structure UserReq where
  username : String
  password : String
deriving Repr, DecidableEq

/-- The `users` table: rows of `(username, password)` where the password
column stores the bcrypt hash.  The database enforces a uniqueness
constraint on `username`. -/
abbrev Store := List (String × String)

/-- Errors surfaced by the `database/sql` calls: `sql.ErrNoRows` from
`QueryRow(...).Scan`, a unique-constraint violation from the INSERT, or
any other I/O / connection error. -/
inductive DBErr where
  | noRows
  | uniqueViolation
  | ioError
deriving Repr, DecidableEq

/-- External-failure oracle for one request: whether
`bcrypt.GenerateFromPassword` fails, whether the INSERT fails with a
non-constraint (I/O) error, and whether the SELECT fails with an I/O
error.  `false` everywhere is the normal, healthy run. -/
structure Env where
  hashFails : Bool
  dbExecFails : Bool
  dbQueryIO : Bool
deriving Repr, DecidableEq

/-- Model of `bcrypt.GenerateFromPassword(password, bcrypt.DefaultCost)`
(library code, not in this repository).  Real bcrypt emits a
`$2a$10$<salt><digest>` string; the model keeps the format prefix and the
defining observable property that the output verifies against exactly the
input password via `bcryptCompareHashAndPassword`, and is never the
plaintext itself (it carries the algorithm prefix). -/
def bcryptHash (password : String) : String :=
  "$2a$10$" ++ password

/-- The fallible call as the Go code sees it: `err != nil` is modelled by
the oracle flag. -/
def bcryptGenerateFromPassword (env : Env) (password : String) :
    Except Unit String :=
  if env.hashFails then .error () else .ok (bcryptHash password)

/-- Model of `bcrypt.CompareHashAndPassword(hash, password)`: `true` means
the Go call returned nil (match). -/
def bcryptCompareHashAndPassword (hash password : String) : Bool :=
  hash == bcryptHash password

/-- `db.Exec("INSERT INTO users (username, password) VALUES ($1,$2)", u, h)`:
fails with an I/O error when the oracle says so, fails with the
uniqueness-constraint violation when a row for `u` already exists,
otherwise appends the row. -/
def dbExecInsertUser (env : Env) (store : Store) (u h : String) :
    Except DBErr Store :=
  if env.dbExecFails then .error .ioError
  else if store.any (fun r => r.1 == u) then .error .uniqueViolation
  else .ok (store ++ [(u, h)])

/-- `db.QueryRow("SELECT password FROM users WHERE username=$1", u).Scan(&hash)`:
an I/O error when the oracle says so, `sql.ErrNoRows` when no row matches,
otherwise the stored password hash. -/
def dbQueryRowScan (env : Env) (store : Store) (u : String) :
    Except DBErr String :=
  if env.dbQueryIO then .error .ioError
  else
    match store.find? (fun r => r.1 == u) with
    | some r => .ok r.2
    | none => .error .noRows

/-- Units of work the handlers can perform after validation; recorded so
that the absence of hashing / store access on early rejection is a stated
fact rather than an informal one. -/
inductive Effect where
  | hashPassword
  | compareHash
  | storeExec
  | storeQuery
deriving Repr, DecidableEq

/-- Outcome of one signup request: the JSON response, the store after the
request, and the effects performed. -/
structure SignupResult where
  resp : HttpResponse
  store : Store
  effects : List Effect
deriving Repr, DecidableEq

/-- Outcome of one signin request. -/
structure SigninResult where
  resp : HttpResponse
  effects : List Effect
deriving Repr, DecidableEq

/-- `signupHandler` (src/main.go:207-228).  `body` is the result of
`c.ShouldBindJSON` (`.error e` carries `err.Error()`). -/
def signupHandler (env : Env) (store : Store)
    (body : Except String UserReq) : SignupResult :=
  match body with
  | .error e => ⟨⟨400, [("error", e)]⟩, store, []⟩
  | .ok req =>
    if req.username == "" || req.password == "" then
      ⟨⟨400, [("error", "username and password required")]⟩, store, []⟩
    else
      match bcryptGenerateFromPassword env req.password with
      | .error _ =>
        ⟨⟨500, [("error", "failed to hash password")]⟩, store,
          [.hashPassword]⟩
      | .ok hash =>
        match dbExecInsertUser env store req.username hash with
        | .error _ =>
          ⟨⟨500, [("error", "failed to create user")]⟩, store,
            [.hashPassword, .storeExec]⟩
        | .ok store' =>
          ⟨⟨200, [("message", "user created")]⟩, store',
            [.hashPassword, .storeExec]⟩

/-- `signinHandler` (src/main.go:230-251). -/
def signinHandler (env : Env) (store : Store)
    (body : Except String UserReq) : SigninResult :=
  match body with
  | .error e => ⟨⟨400, [("error", e)]⟩, []⟩
  | .ok req =>
    if req.username == "" || req.password == "" then
      ⟨⟨400, [("error", "username and password required")]⟩, []⟩
    else
      match dbQueryRowScan env store req.username with
      | .error _ =>
        ⟨⟨401, [("error", "invalid username or password")]⟩, [.storeQuery]⟩
      | .ok hash =>
        if bcryptCompareHashAndPassword hash req.password then
          ⟨⟨200, [("message", "login success")]⟩, [.storeQuery, .compareHash]⟩
        else
          ⟨⟨401, [("error", "invalid username or password")]⟩,
            [.storeQuery, .compareHash]⟩

/-- `signupHandler` of revision B (src/unnamed/part_001:164-194).  Same
control flow as revision A via `db.ExecContext`; the only observable
difference is the 500 message text, "failed to save user". -/
def signupHandlerV2 (env : Env) (store : Store)
    (body : Except String UserReq) : SignupResult :=
  match body with
  | .error e => ⟨⟨400, [("error", e)]⟩, store, []⟩
  | .ok req =>
    if req.username == "" || req.password == "" then
      ⟨⟨400, [("error", "username and password required")]⟩, store, []⟩
    else
      match bcryptGenerateFromPassword env req.password with
      | .error _ =>
        ⟨⟨500, [("error", "failed to hash password")]⟩, store,
          [.hashPassword]⟩
      | .ok hash =>
        match dbExecInsertUser env store req.username hash with
        | .error _ =>
          ⟨⟨500, [("error", "failed to save user")]⟩, store,
            [.hashPassword, .storeExec]⟩
        | .ok store' =>
          ⟨⟨200, [("message", "user created")]⟩, store',
            [.hashPassword, .storeExec]⟩

/-- `signinHandler` of revision B (src/unnamed/part_001:196-225).  Uses
`db.QueryRowContext`; statuses and message texts are identical to
revision A. -/
def signinHandlerV2 (env : Env) (store : Store)
    (body : Except String UserReq) : SigninResult :=
  match body with
  | .error e => ⟨⟨400, [("error", e)]⟩, []⟩
  | .ok req =>
    if req.username == "" || req.password == "" then
      ⟨⟨400, [("error", "username and password required")]⟩, []⟩
    else
      match dbQueryRowScan env store req.username with
      | .error _ =>
        ⟨⟨401, [("error", "invalid username or password")]⟩, [.storeQuery]⟩
      | .ok hash =>
        if bcryptCompareHashAndPassword hash req.password then
          ⟨⟨200, [("message", "login success")]⟩, [.storeQuery, .compareHash]⟩
        else
          ⟨⟨401, [("error", "invalid username or password")]⟩,
            [.storeQuery, .compareHash]⟩

/-- The healthy oracle: no external failures. -/
def envOk : Env := ⟨false, false, false⟩

/-! ## Startup: revision A (src/main.go, `initDB` + `main`) -/

/-- The environment variables `initDB` of revision A reads:
DB_USER, DB_PASS, DB_NAME, DB_HOST (empty string = unset). -/
structure ConfigA where
  dbUser : String
  dbPass : String
  dbName : String
  dbHost : String
deriving Repr, DecidableEq

/-- What revision A's `initDB` leaves behind: whether the package-global
`db` is non-nil, whether the final ping succeeded, how many ping attempts
ran, and the total seconds slept between/after failed attempts. -/
structure InitDBResultA where
  dbSet : Bool
  connected : Bool
  pingAttempts : Nat
  sleepSeconds : Nat
deriving Repr, DecidableEq

/-- The retry loop of src/main.go:53-60: `for i := 0; i < 5; i++`, ping,
break on success, otherwise log and `time.Sleep(2s)`.  `pings i` is the
outcome of the i-th `db.Ping()`; `fuel` is the remaining iterations.
Returns (final err == nil, attempts made, seconds slept). -/
def pingLoopA (pings : Nat → Bool) (i fuel : Nat) : Bool × Nat × Nat :=
  match fuel with
  | 0 => (false, 0, 0)
  | fuel' + 1 =>
    if pings i then (true, 1, 0)
    else
      let rest := pingLoopA pings (i + 1) fuel'
      (rest.1, rest.2.1 + 1, rest.2.2 + 2)

/-- `initDB` of revision A (src/main.go:21-68).  On missing env vars it
PRINTS and RETURNS (no abort): `db` stays nil.  On `sql.Open` error
(oracle `openOk = false`) likewise.  Otherwise `db` is set by `sql.Open`
and stays set even when every ping fails; ping exhaustion is only
logged. -/
def initDBA (cfg : ConfigA) (openOk : Bool) (pings : Nat → Bool) :
    InitDBResultA :=
  if cfg.dbUser == "" || cfg.dbPass == "" || cfg.dbName == ""
      || cfg.dbHost == "" then
    ⟨false, false, 0, 0⟩
  else if !openOk then
    ⟨false, false, 0, 0⟩
  else
    let r := pingLoopA pings 0 5
    ⟨true, r.1, r.2.1, r.2.2⟩

/-- What `main` of revision A does after the 5s startup sleep: call
`initDB()` and then unconditionally register routes and `r.Run(...)` -
there is no branch on initDB's outcome, so the process proceeds to serve
whatever initDB left behind. -/
structure ServerA where
  init : InitDBResultA
  serves : Bool
deriving Repr, DecidableEq

/-- `main` of revision A (src/main.go:94-161): serving is unconditional. -/
def mainA (cfg : ConfigA) (openOk : Bool) (pings : Nat → Bool) : ServerA :=
  ⟨initDBA cfg openOk pings, true⟩

/-! ## Startup: revision B (src/unnamed/part_001, `initDB` + `main`) -/

/-- The environment variables revision B's `initDB` reads: DB_USER,
DB_PASS, DB_NAME, INSTANCE_CONNECTION_NAME (PRIVATE_IP only toggles a
dialer option and is not required). -/
structure ConfigB where
  dbUser : String
  dbPass : String
  dbName : String
  instanceConn : String
  privateIP : String
deriving Repr, DecidableEq

/-- `initDB` of revision B (src/unnamed/part_001:60-113).  Every failure
path calls `log.Fatal`, which terminates the process: modelled as
`.error msg`.  `.ok` is the returned handle.  Oracles: `parseOk` for
`pgx.ParseConfig`, `dialerOk` for `cloudsqlconn.NewDialer`, `openOk` for
`sql.Open`, `pingOk` for the single `db.PingContext`. -/
def initDBB (cfg : ConfigB) (parseOk dialerOk openOk pingOk : Bool) :
    Except String Unit :=
  if cfg.dbUser == "" || cfg.dbPass == "" || cfg.dbName == ""
      || cfg.instanceConn == "" then
    .error "Env vars DB_USER, DB_PASS, DB_NAME, INSTANCE_CONNECTION_NAME must be set"
  else if !parseOk then .error "pgx.ParseConfig"
  else if !dialerOk then .error "cloudsqlconn.NewDialer"
  else if !openOk then .error "sql.Open"
  else if !pingOk then .error "db.Ping"
  else .ok ()

/-- Ping attempts made by revision B's `initDB`: a single `PingContext`,
reached only when config, parse, dialer and open all succeeded. -/
def initDBBPingAttempts (cfg : ConfigB) (parseOk dialerOk openOk : Bool) :
    Nat :=
  if cfg.dbUser == "" || cfg.dbPass == "" || cfg.dbName == ""
      || cfg.instanceConn == "" then 0
  else if !parseOk then 0
  else if !dialerOk then 0
  else if !openOk then 0
  else 1

/-- `main` of revision B (src/unnamed/part_001:115-162): it serves only if
`initDB` returned (did not `log.Fatal`). -/
def mainBServes (cfg : ConfigB) (parseOk dialerOk openOk pingOk : Bool) :
    Bool :=
  (initDBB cfg parseOk dialerOk openOk pingOk).toBool

/-! ## Health endpoints -/

/-- The GET /health handler of revision A (src/main.go:121-146) and the
caller-side ping timeout (seconds) it installs via `context.WithTimeout`
(0 when no ping is attempted).  `errText` is `err.Error()` of the failed
ping. -/
def healthHandlerA (dbSet pingOk : Bool) (errText : String) :
    HttpResponse × Nat :=
  if !dbSet then
    (⟨503, [("status", "database not connected")]⟩, 0)
  else if !pingOk then
    (⟨503, [("status", "database connection failed"), ("error", errText)]⟩, 5)
  else
    (⟨200, [("status", "ok")]⟩, 5)

/-- The GET /health handler of revision B (src/unnamed/part_001:146-148):
a constant 200 "ok" that never consults the database. -/
def healthHandlerB : HttpResponse :=
  ⟨200, [("status", "ok")]⟩

/-! ## Itinerary forwarding (`handleItineraryRequest`) -/

/-- JSON values, as `encoding/json` sees them (numbers restricted to
integers; nothing in the handlers depends on fractional numbers). -/
inductive Json where
  | null
  | bool (b : Bool)
  | num (n : Int)
  | str (s : String)
  | arr (xs : List Json)
  | obj (fields : List (String × Json))

/-- `Traveler` (src/main.go:70-73). -/
structure Traveler where
  name : String
  age : Int
deriving Repr, DecidableEq

/-- `AirportInfo` (src/main.go:75-79). -/
structure AirportInfo where
  airport : String
  date : String
  time : String
deriving Repr, DecidableEq

/-- `ItineraryRequest` (src/main.go:81-86).  `none` models a nil Go slice
(what an absent or null JSON field decodes to); `some []` a present empty
array. -/
structure ItineraryRequest where
  countries : Option (List String)
  arrival : AirportInfo
  departure : AirportInfo
  travelers : Option (List Traveler)
deriving Repr, DecidableEq

/-- Field lookup as `encoding/json` resolves duplicate keys: the last
occurrence wins. -/
def lookupField (k : String) (fs : List (String × Json)) : Option Json :=
  (fs.reverse.find? (fun f => f.1 == k)).map (fun f => f.2)

/-- Decoding a JSON value into a Go `string` field: `null` is a no-op
(keeps the zero value), a string is taken, anything else is a type
error. -/
def decodeGoString : Json → Except String String
  | .null => .ok ""
  | .str s => .ok s
  | _ => .error "cannot unmarshal into field of type string"

/-- Decoding into a Go `int` field. -/
def decodeGoInt : Json → Except String Int
  | .null => .ok 0
  | .num n => .ok n
  | _ => .error "cannot unmarshal into field of type int"

/-- Decoding into `[]string`: null keeps the nil slice; an array decodes
elementwise. -/
def decodeStringSlice : Json → Except String (Option (List String))
  | .null => .ok none
  | .arr xs => (xs.mapM decodeGoString).map some
  | _ => .error "cannot unmarshal into field of type []string"

/-- Decoding into `AirportInfo`: null keeps the zero struct; an object
decodes the three known keys (absent keys keep zero values, unknown keys
are ignored). -/
def decodeAirportInfo : Json → Except String AirportInfo
  | .null => .ok ⟨"", "", ""⟩
  | .obj fs => do
    let airport ← decodeGoString ((lookupField "airport" fs).getD .null)
    let date ← decodeGoString ((lookupField "date" fs).getD .null)
    let time ← decodeGoString ((lookupField "time" fs).getD .null)
    .ok ⟨airport, date, time⟩
  | _ => .error "cannot unmarshal into field of type AirportInfo"

/-- Decoding into `Traveler`. -/
def decodeTraveler : Json → Except String Traveler
  | .null => .ok ⟨"", 0⟩
  | .obj fs => do
    let name ← decodeGoString ((lookupField "name" fs).getD .null)
    let age ← decodeGoInt ((lookupField "age" fs).getD .null)
    .ok ⟨name, age⟩
  | _ => .error "cannot unmarshal into field of type Traveler"

/-- Decoding into `[]Traveler`. -/
def decodeTravelerSlice : Json → Except String (Option (List Traveler))
  | .null => .ok none
  | .arr xs => (xs.mapM decodeTraveler).map some
  | _ => .error "cannot unmarshal into field of type []Traveler"

/-- `c.ShouldBindJSON(&requestBody)` of revision A
(src/main.go:164-168): the body must be a JSON object (or null); the four
known keys are decoded with Go's zero-value defaults, every unknown key is
silently dropped, and a type mismatch is a bind error (HTTP 400). -/
def bindItineraryRequest : Json → Except String ItineraryRequest
  | .null => .ok ⟨none, ⟨"", "", ""⟩, ⟨"", "", ""⟩, none⟩
  | .obj fs => do
    let countries ← decodeStringSlice ((lookupField "countries" fs).getD .null)
    let arrival ← decodeAirportInfo ((lookupField "arrival" fs).getD .null)
    let departure ← decodeAirportInfo ((lookupField "departure" fs).getD .null)
    let travelers ← decodeTravelerSlice ((lookupField "travelers" fs).getD .null)
    .ok ⟨countries, arrival, departure, travelers⟩
  | _ => .error "cannot unmarshal into ItineraryRequest"

/-- `json.Marshal` of an `AirportInfo`. -/
def marshalAirportInfo (a : AirportInfo) : Json :=
  .obj [("airport", .str a.airport), ("date", .str a.date),
        ("time", .str a.time)]

/-- `json.Marshal` of a `Traveler`. -/
def marshalTraveler (t : Traveler) : Json :=
  .obj [("name", .str t.name), ("age", .num t.age)]

/-- `json.Marshal(requestBody)` of revision A (src/main.go:171): a fixed
four-key object in struct-field order; nil slices marshal as `null`. -/
def marshalItineraryRequest (r : ItineraryRequest) : Json :=
  .obj [("countries",
          match r.countries with
          | none => .null
          | some xs => .arr (xs.map .str)),
        ("arrival", marshalAirportInfo r.arrival),
        ("departure", marshalAirportInfo r.departure),
        ("travelers",
          match r.travelers with
          | none => .null
          | some ts => .arr (ts.map marshalTraveler))]

/-- The fixed upstream URL (src/main.go:178, src/unnamed/part_001:240). -/
def upstreamURL : String :=
  "https://gsc2025-sps-418414887688.us-central1.run.app/run"

/-- The outbound POST the Gateway builds. -/
structure ForwardedRequest where
  url : String
  contentType : String
  body : Json

/-- What the upstream returned: its status code and raw body bytes
(modelled as a string). -/
structure UpstreamResult where
  status : Nat
  respBody : String
deriving Repr, DecidableEq

/-- What the itinerary handler sends back: `c.Data(status, contentType,
body)` for the relay path, or a `gin.H` JSON error. -/
structure RelayResponse where
  status : Nat
  contentType : String
  respBody : String
deriving Repr, DecidableEq

/-- Observable outcome of one itinerary request: the request forwarded
upstream (if any) and the response to the caller. -/
structure ItineraryOutcome where
  sent : Option ForwardedRequest
  response : RelayResponse

/-- Renders a gin.H error body the way both error branches of the handler
do; the JSON text is whatever gin serialises, kept abstract as the message
itself in a one-key object rendering. -/
def ginError (msg : String) : String :=
  "\x7b\"error\":\"" ++ msg ++ "\"\x7d"

/-- `handleItineraryRequest` of revision A (src/main.go:163-205).
`upstream` is `client.Do`: `none` models a transport error.  On bind
failure: 400 with the bind error, nothing sent.  Otherwise the bound
struct is re-marshalled, POSTed to the fixed URL with Content-Type
application/json, and the upstream status and body are relayed
byte-for-byte via `c.Data`. -/
def handleItineraryRequest (inbound : Json)
    (upstream : Option UpstreamResult) : ItineraryOutcome :=
  match bindItineraryRequest inbound with
  | .error e => ⟨none, ⟨400, "application/json", ginError e⟩⟩
  | .ok requestBody =>
    let jsonData := marshalItineraryRequest requestBody
    match upstream with
    | none =>
      ⟨some ⟨upstreamURL, "application/json", jsonData⟩,
        ⟨500, "application/json", ginError "Error sending request"⟩⟩
    | some resp =>
      ⟨some ⟨upstreamURL, "application/json", jsonData⟩,
        ⟨resp.status, "application/json", resp.respBody⟩⟩

/-- Deduplicate object keys the way decoding into `map[string]interface{}`
does: the last occurrence of a key wins. -/
def dedupFields (fs : List (String × Json)) : List (String × Json) :=
  fs.foldl (fun acc f => acc.filter (fun g => g.1 != f.1) ++ [f]) []

/-- Insert into a key-sorted field list (Go marshals maps with keys in
sorted order). -/
def insertSortedField (f : String × Json) :
    List (String × Json) → List (String × Json)
  | [] => [f]
  | g :: gs =>
    if f.1 ≤ g.1 then f :: g :: gs else g :: insertSortedField f gs

/-- Sort fields by key. -/
def sortFields : List (String × Json) → List (String × Json)
  | [] => []
  | f :: fs => insertSortedField f (sortFields fs)

/-- `c.ShouldBindJSON(&requestBody)` of revision B into
`map[string]interface{}` (src/unnamed/part_001:228-232): only an object
(or null, leaving the map nil) binds. -/
def bindItineraryMap : Json → Except String (Option (List (String × Json)))
  | .null => .ok none
  | .obj fs => .ok (some fs)
  | _ => .error "cannot unmarshal into map"

/-- `json.Marshal` of the bound map in revision B: a nil map marshals as
`null`; otherwise keys are deduplicated (last wins) and emitted in sorted
order. -/
def marshalItineraryMap : Option (List (String × Json)) → Json
  | none => .null
  | some fs => .obj (sortFields (dedupFields fs))

/-- `handleItineraryRequest` of revision B (src/unnamed/part_001:227-262):
identical to revision A except the body is bound to a generic map instead
of the typed struct. -/
def handleItineraryRequestV2 (inbound : Json)
    (upstream : Option UpstreamResult) : ItineraryOutcome :=
  match bindItineraryMap inbound with
  | .error e => ⟨none, ⟨400, "application/json", ginError e⟩⟩
  | .ok requestBody =>
    let jsonData := marshalItineraryMap requestBody
    match upstream with
    | none =>
      ⟨some ⟨upstreamURL, "application/json", jsonData⟩,
        ⟨500, "application/json", ginError "Error sending request"⟩⟩
    | some resp =>
      ⟨some ⟨upstreamURL, "application/json", jsonData⟩,
        ⟨resp.status, "application/json", resp.respBody⟩⟩

/-- Top-level keys of a JSON value (discriminator used to compare
payloads). -/
def Json.topKeys : Json → List String
  | .obj fs => fs.map (fun f => f.1)
  | _ => []

/-! ## Helper lemmas -/

/-- Normal form of `signupHandler` once validation has passed. -/
theorem signupHandler_nonempty (env : Env) (store : Store) (u p : String)
    (hu : u ≠ "") (hp : p ≠ "") :
    signupHandler env store (.ok ⟨u, p⟩)
      = if env.hashFails then
          ⟨⟨500, [("error", "failed to hash password")]⟩, store,
            [.hashPassword]⟩
        else if env.dbExecFails then
          ⟨⟨500, [("error", "failed to create user")]⟩, store,
            [.hashPassword, .storeExec]⟩
        else if store.any (fun r => r.1 == u) then
          ⟨⟨500, [("error", "failed to create user")]⟩, store,
            [.hashPassword, .storeExec]⟩
        else
          ⟨⟨200, [("message", "user created")]⟩,
            store ++ [(u, bcryptHash p)], [.hashPassword, .storeExec]⟩ := by
  by_cases hf : env.hashFails <;> by_cases he : env.dbExecFails <;>
    by_cases hdup : store.any (fun r => r.1 == u) <;>
      simp [signupHandler, bcryptGenerateFromPassword, dbExecInsertUser,
        hu, hp, hf, he, hdup]

/-- Normal form of `signinHandler` once validation has passed. -/
theorem signinHandler_nonempty (env : Env) (store : Store) (u p : String)
    (hu : u ≠ "") (hp : p ≠ "") :
    signinHandler env store (.ok ⟨u, p⟩)
      = match dbQueryRowScan env store u with
        | .error _ =>
          ⟨⟨401, [("error", "invalid username or password")]⟩, [.storeQuery]⟩
        | .ok h =>
          if bcryptCompareHashAndPassword h p then
            ⟨⟨200, [("message", "login success")]⟩,
              [.storeQuery, .compareHash]⟩
          else
            ⟨⟨401, [("error", "invalid username or password")]⟩,
              [.storeQuery, .compareHash]⟩ := by
  simp [signinHandler, hu, hp]

/-- The two revisions' signin handlers are the same function (their source
bodies differ only in `QueryRow` vs `QueryRowContext`). -/
theorem signinHandlerV2_eq : signinHandlerV2 = signinHandler := rfl

/-- When no row of `store` has username `u`, the freshly appended row is
the one `find?` returns. -/
theorem find?_username_append (store : Store) (u h : String)
    (hfresh : ∀ r ∈ store, r.1 ≠ u) :
    (store ++ [(u, h)]).find? (fun r => r.1 == u) = some (u, h) := by
  induction store with
  | nil => simp
  | cons a l ih =>
    have ha : (a.1 == u) = false := by
      simpa using hfresh a (by simp)
    simpa [List.find?, ha] using ih (fun r hr => hfresh r (by simp [hr]))

/-- When no row of `store` has username `u`, the duplicate check is
negative. -/
theorem any_username_eq_false (store : Store) (u : String)
    (hfresh : ∀ r ∈ store, r.1 ≠ u) :
    store.any (fun r => r.1 == u) = false := by
  simp only [List.any_eq_false]
  intro r hr
  simpa using hfresh r hr

/-- The model hash is never the plaintext: it is strictly longer. -/
theorem bcryptHash_ne_plaintext (p : String) : bcryptHash p ≠ p := by
  intro h
  have hlen := congrArg String.length h
  simp [bcryptHash, String.length_append] at hlen
  exact absurd hlen (by decide)

/-- The model hash verifies against the password it was generated from. -/
theorem bcryptCompare_hash_self (p : String) :
    bcryptCompareHashAndPassword (bcryptHash p) p = true := by
  simp [bcryptCompareHashAndPassword]

/-- `signinHandler` never answers with a 500-class status. -/
theorem signin_status_ne_500 (env : Env) (store : Store)
    (body : Except String UserReq) :
    (signinHandler env store body).resp.status ≠ 500 := by
  cases body with
  | error e => simp [signinHandler]
  | ok r =>
    by_cases hval : (r.username == "" || r.password == "") = true
    · simp [signinHandler, hval]
    · cases hscan : dbQueryRowScan env store r.username with
      | error e => simp [signinHandler, hval, hscan]
      | ok h =>
        by_cases hc : bcryptCompareHashAndPassword h r.password
          <;> simp [signinHandler, hval, hscan, hc]

/-! ## Claims -/

/-- Claim C1: for every non-empty `(username, password)`, `register`
against a store with no row for that username succeeds (200 "user
created") and a subsequent `authenticate` with the same credentials
succeeds (200 "login success"): the stored hash verifies against the
original password.  External faults are absent (`envOk`). -/
theorem register_then_authenticate_succeeds
    (store : Store) (u p : String) (hu : u ≠ "") (hp : p ≠ "")
    (hfresh : ∀ r ∈ store, r.1 ≠ u) :
    (signupHandler envOk store (.ok ⟨u, p⟩)).resp
        = ⟨200, [("message", "user created")]⟩
    ∧ (signinHandler envOk
          (signupHandler envOk store (.ok ⟨u, p⟩)).store
          (.ok ⟨u, p⟩)).resp
        = ⟨200, [("message", "login success")]⟩ := by
  have hany := any_username_eq_false store u hfresh
  have hsignup := signupHandler_nonempty envOk store u p hu hp
  rw [hsignup]
  have henv : envOk.hashFails = false ∧ envOk.dbExecFails = false := by
    constructor <;> rfl
  refine ⟨by simp [henv.1, henv.2, hany], ?_⟩
  have hstore :
      (if envOk.hashFails then
          (⟨⟨500, [("error", "failed to hash password")]⟩, store,
            [.hashPassword]⟩ : SignupResult)
        else if envOk.dbExecFails then
          ⟨⟨500, [("error", "failed to create user")]⟩, store,
            [.hashPassword, .storeExec]⟩
        else if store.any (fun r => r.1 == u) then
          ⟨⟨500, [("error", "failed to create user")]⟩, store,
            [.hashPassword, .storeExec]⟩
        else
          ⟨⟨200, [("message", "user created")]⟩,
            store ++ [(u, bcryptHash p)],
            [.hashPassword, .storeExec]⟩).store
        = store ++ [(u, bcryptHash p)] := by
    simp [henv.1, henv.2, hany]
  rw [hstore, signinHandler_nonempty envOk _ u p hu hp]
  have hscan : dbQueryRowScan envOk (store ++ [(u, bcryptHash p)]) u
      = .ok (bcryptHash p) := by
    simp [dbQueryRowScan, envOk, find?_username_append store u _ hfresh]
  rw [hscan]
  simp [bcryptCompare_hash_self]

/-- Witness for C1 at `("alice", "wonderland")` on the empty store. -/
theorem register_then_authenticate_succeeds_witness :
    (signupHandler envOk [] (.ok ⟨"alice", "wonderland"⟩)).resp
        = ⟨200, [("message", "user created")]⟩
    ∧ (signinHandler envOk
          (signupHandler envOk [] (.ok ⟨"alice", "wonderland"⟩)).store
          (.ok ⟨"alice", "wonderland"⟩)).resp
        = ⟨200, [("message", "login success")]⟩ :=
  register_then_authenticate_succeeds [] "alice" "wonderland"
    (by decide) (by decide) (by simp)

/-- Claim C2: an unknown username (lookup reports no row) and a wrong
password for an existing username produce the identical observable
failure: same status 401, same body `{"error": "invalid username or
password"}` — indistinguishable to the caller. -/
theorem unknown_user_and_wrong_password_indistinguishable
    (store₁ store₂ : Store) (u₁ p₁ u₂ p₂ h : String)
    (hu₁ : u₁ ≠ "") (hp₁ : p₁ ≠ "") (hu₂ : u₂ ≠ "") (hp₂ : p₂ ≠ "")
    (hmiss : dbQueryRowScan envOk store₁ u₁ = .error .noRows)
    (hfound : dbQueryRowScan envOk store₂ u₂ = .ok h)
    (hwrong : bcryptCompareHashAndPassword h p₂ = false) :
    (signinHandler envOk store₁ (.ok ⟨u₁, p₁⟩)).resp
        = ⟨401, [("error", "invalid username or password")]⟩
    ∧ (signinHandler envOk store₂ (.ok ⟨u₂, p₂⟩)).resp
        = ⟨401, [("error", "invalid username or password")]⟩
    ∧ (signinHandler envOk store₁ (.ok ⟨u₁, p₁⟩)).resp
        = (signinHandler envOk store₂ (.ok ⟨u₂, p₂⟩)).resp := by
  have h₁ := signinHandler_nonempty envOk store₁ u₁ p₁ hu₁ hp₁
  have h₂ := signinHandler_nonempty envOk store₂ u₂ p₂ hu₂ hp₂
  rw [hmiss] at h₁
  rw [hfound] at h₂
  refine ⟨by rw [h₁], by rw [h₂]; simp [hwrong], ?_⟩
  rw [h₁, h₂]
  simp [hwrong]

/-- Witness for C2: unknown user "alice" on the empty store vs the wrong
password for registered "bob". -/
theorem unknown_user_and_wrong_password_indistinguishable_witness :
    (signinHandler envOk [] (.ok ⟨"alice", "pw"⟩)).resp
        = ⟨401, [("error", "invalid username or password")]⟩
    ∧ (signinHandler envOk [("bob", bcryptHash "right")]
          (.ok ⟨"bob", "wrong"⟩)).resp
        = ⟨401, [("error", "invalid username or password")]⟩
    ∧ (signinHandler envOk [] (.ok ⟨"alice", "pw"⟩)).resp
        = (signinHandler envOk [("bob", bcryptHash "right")]
            (.ok ⟨"bob", "wrong"⟩)).resp :=
  unknown_user_and_wrong_password_indistinguishable
    [] [("bob", bcryptHash "right")] "alice" "pw" "bob" "wrong"
    (bcryptHash "right") (by decide) (by decide) (by decide) (by decide)
    rfl rfl (by decide)

/-- Claim C3 (code bug in revision A): with DB_USER unset, revision A's
`initDB` merely prints and returns — the handle stays nil, yet `main`
still starts serving.  Revision B shows the intended behaviour: the same
missing variable makes `initDB` call `log.Fatal`, so the process never
serves. -/
theorem missing_config_not_fatal_in_revision_A :
    mainA ⟨"", "secret", "sps_db", "34.122.48.1"⟩ true (fun _ => true)
      = ⟨⟨false, false, 0, 0⟩, true⟩
    ∧ initDBB ⟨"", "secret", "sps_db", "proj:region:inst", ""⟩
        true true true true
      = .error
          "Env vars DB_USER, DB_PASS, DB_NAME, INSTANCE_CONNECTION_NAME must be set"
    ∧ mainBServes ⟨"", "secret", "sps_db", "proj:region:inst", ""⟩
        true true true true = false :=
  ⟨rfl, rfl, rfl⟩

/-- Claim C4: a register call either leaves the store unchanged or
appends exactly `(u, bcryptHash p)`; the stored value differs from the
plaintext and re-verifies via the service's comparison primitive; a
success (200) always means the hash was stored; and a hashing failure
aborts with 500, no store change, and no store-write effect. -/
theorem register_never_persists_plaintext
    (env : Env) (store : Store) (u p : String)
    (hu : u ≠ "") (hp : p ≠ "") :
    ((signupHandler env store (.ok ⟨u, p⟩)).store = store
      ∨ (signupHandler env store (.ok ⟨u, p⟩)).store
          = store ++ [(u, bcryptHash p)])
    ∧ bcryptHash p ≠ p
    ∧ bcryptCompareHashAndPassword (bcryptHash p) p = true
    ∧ ((signupHandler env store (.ok ⟨u, p⟩)).resp.status = 200 →
        (signupHandler env store (.ok ⟨u, p⟩)).store
          = store ++ [(u, bcryptHash p)])
    ∧ (env.hashFails = true →
        (signupHandler env store (.ok ⟨u, p⟩)).resp
            = ⟨500, [("error", "failed to hash password")]⟩
        ∧ (signupHandler env store (.ok ⟨u, p⟩)).store = store
        ∧ Effect.storeExec ∉ (signupHandler env store (.ok ⟨u, p⟩)).effects)
    := by
  have hs := signupHandler_nonempty env store u p hu hp
  refine ⟨?_, bcryptHash_ne_plaintext p, bcryptCompare_hash_self p, ?_, ?_⟩
  · rw [hs]
    by_cases hf : env.hashFails <;> by_cases he : env.dbExecFails <;>
      by_cases hd : store.any (fun r => r.1 == u) <;> simp [hf, he, hd]
  · rw [hs]
    by_cases hf : env.hashFails <;> by_cases he : env.dbExecFails <;>
      by_cases hd : store.any (fun r => r.1 == u) <;> simp [hf, he, hd]
  · intro hf
    rw [hs]
    simp [hf]

/-- Witness for C4 with a failing hash oracle at `("alice", "pw")`. -/
theorem register_never_persists_plaintext_witness :
    ((signupHandler ⟨true, false, false⟩ [] (.ok ⟨"alice", "pw"⟩)).store = []
      ∨ (signupHandler ⟨true, false, false⟩ [] (.ok ⟨"alice", "pw"⟩)).store
          = [] ++ [("alice", bcryptHash "pw")])
    ∧ bcryptHash "pw" ≠ "pw"
    ∧ bcryptCompareHashAndPassword (bcryptHash "pw") "pw" = true
    ∧ ((signupHandler ⟨true, false, false⟩ [] (.ok ⟨"alice", "pw"⟩)).resp.status
          = 200 →
        (signupHandler ⟨true, false, false⟩ [] (.ok ⟨"alice", "pw"⟩)).store
          = [] ++ [("alice", bcryptHash "pw")])
    ∧ ((⟨true, false, false⟩ : Env).hashFails = true →
        (signupHandler ⟨true, false, false⟩ [] (.ok ⟨"alice", "pw"⟩)).resp
            = ⟨500, [("error", "failed to hash password")]⟩
        ∧ (signupHandler ⟨true, false, false⟩ [] (.ok ⟨"alice", "pw"⟩)).store
            = []
        ∧ Effect.storeExec
            ∉ (signupHandler ⟨true, false, false⟩ [] (.ok ⟨"alice", "pw"⟩)).effects) :=
  register_never_persists_plaintext ⟨true, false, false⟩ [] "alice" "pw"
    (by decide) (by decide)

/-- Claim C5: an empty username or password on either endpoint yields 400
"username and password required" with an unchanged store and an empty
effect trace - no hashing, no comparison, and no store access happen, in
both revisions. -/
theorem empty_credentials_rejected_before_work
    (env : Env) (store : Store) (u p : String)
    (hempty : u = "" ∨ p = "") :
    (signupHandler env store (.ok ⟨u, p⟩)).resp
        = ⟨400, [("error", "username and password required")]⟩
    ∧ (signupHandler env store (.ok ⟨u, p⟩)).store = store
    ∧ (signupHandler env store (.ok ⟨u, p⟩)).effects = []
    ∧ (signinHandler env store (.ok ⟨u, p⟩)).resp
        = ⟨400, [("error", "username and password required")]⟩
    ∧ (signinHandler env store (.ok ⟨u, p⟩)).effects = []
    ∧ (signupHandlerV2 env store (.ok ⟨u, p⟩)).resp
        = ⟨400, [("error", "username and password required")]⟩
    ∧ (signupHandlerV2 env store (.ok ⟨u, p⟩)).store = store
    ∧ (signupHandlerV2 env store (.ok ⟨u, p⟩)).effects = []
    ∧ (signinHandlerV2 env store (.ok ⟨u, p⟩)).resp
        = ⟨400, [("error", "username and password required")]⟩
    ∧ (signinHandlerV2 env store (.ok ⟨u, p⟩)).effects = [] := by
  rcases hempty with h | h <;> subst h <;>
    simp [signupHandler, signinHandler, signupHandlerV2, signinHandlerV2]

/-- Witness for C5 at an empty username. -/
theorem empty_credentials_rejected_before_work_witness :
    (signupHandler envOk [] (.ok ⟨"", "pw"⟩)).resp
        = ⟨400, [("error", "username and password required")]⟩
    ∧ (signupHandler envOk [] (.ok ⟨"", "pw"⟩)).store = []
    ∧ (signupHandler envOk [] (.ok ⟨"", "pw"⟩)).effects = []
    ∧ (signinHandler envOk [] (.ok ⟨"", "pw"⟩)).resp
        = ⟨400, [("error", "username and password required")]⟩
    ∧ (signinHandler envOk [] (.ok ⟨"", "pw"⟩)).effects = []
    ∧ (signupHandlerV2 envOk [] (.ok ⟨"", "pw"⟩)).resp
        = ⟨400, [("error", "username and password required")]⟩
    ∧ (signupHandlerV2 envOk [] (.ok ⟨"", "pw"⟩)).store = []
    ∧ (signupHandlerV2 envOk [] (.ok ⟨"", "pw"⟩)).effects = []
    ∧ (signinHandlerV2 envOk [] (.ok ⟨"", "pw"⟩)).resp
        = ⟨400, [("error", "username and password required")]⟩
    ∧ (signinHandlerV2 envOk [] (.ok ⟨"", "pw"⟩)).effects = [] :=
  empty_credentials_rejected_before_work envOk [] "" "pw" (Or.inl rfl)

/-- Claim C6 counterexample: in revision A, when every ping fails the
loop makes exactly 5 attempts and sleeps 10 seconds, the handle stays set
but unverified, and `main` still serves - the exhaustion is logged, not
fatal, so the claimed abort does not happen. -/
theorem ping_exhaustion_still_serves_counterexample :
    mainA ⟨"postgres", "secret", "sps_db", "34.122.48.1"⟩ true
        (fun _ => false)
      = ⟨⟨true, false, 5, 10⟩, true⟩ := rfl

/-- Claim C6 (amended): with valid config, revision A pings up to exactly
5 times with 2-second sleeps after each failure (10s total when all
fail); exhaustion leaves the process serving anyway.  Revision B makes at
most one ping attempt, and a ping failure there is fatal: `initDB` never
returns and the process does not serve. -/
theorem ping_retry_bounds
    (cfg : ConfigA) (pings : Nat → Bool)
    (hcfg : cfg.dbUser ≠ "" ∧ cfg.dbPass ≠ "" ∧ cfg.dbName ≠ ""
      ∧ cfg.dbHost ≠ "")
    (hfail : ∀ i, pings i = false) :
    (initDBA cfg true pings).pingAttempts = 5
    ∧ (initDBA cfg true pings).sleepSeconds = 10
    ∧ (initDBA cfg true pings).connected = false
    ∧ (initDBA cfg true pings).dbSet = true
    ∧ (mainA cfg true pings).serves = true
    ∧ (∀ (cfgB : ConfigB) (pOk dOk oOk : Bool),
        initDBB cfgB pOk dOk oOk false ≠ .ok ()
        ∧ mainBServes cfgB pOk dOk oOk false = false
        ∧ initDBBPingAttempts cfgB pOk dOk oOk ≤ 1) := by
  obtain ⟨h1, h2, h3, h4⟩ := hcfg
  have hloop : pingLoopA pings 0 5 = (false, 5, 10) := by
    simp [pingLoopA, hfail]
  have hinit : initDBA cfg true pings = ⟨true, false, 5, 10⟩ := by
    simp [initDBA, h1, h2, h3, h4, hloop]
  refine ⟨by rw [hinit], by rw [hinit], by rw [hinit], by rw [hinit],
    rfl, ?_⟩
  intro cfgB pOk dOk oOk
  refine ⟨?_, ?_, ?_⟩
  · unfold initDBB
    split
    · simp
    · split
      · simp
      · split
        · simp
        · split <;> simp
  · unfold mainBServes initDBB
    split
    · simp [Except.toBool]
    · split
      · simp [Except.toBool]
      · split
        · simp [Except.toBool]
        · split <;> simp [Except.toBool]
  · unfold initDBBPingAttempts
    split
    · simp
    · split
      · simp
      · split
        · simp
        · split <;> simp

/-- Witness for C6 (amended) at a concrete config with all pings
failing. -/
theorem ping_retry_bounds_witness :
    (initDBA ⟨"postgres", "secret", "sps_db", "34.122.48.1"⟩ true
        (fun _ => false)).pingAttempts = 5
    ∧ (initDBA ⟨"postgres", "secret", "sps_db", "34.122.48.1"⟩ true
        (fun _ => false)).sleepSeconds = 10
    ∧ (initDBA ⟨"postgres", "secret", "sps_db", "34.122.48.1"⟩ true
        (fun _ => false)).connected = false
    ∧ (initDBA ⟨"postgres", "secret", "sps_db", "34.122.48.1"⟩ true
        (fun _ => false)).dbSet = true
    ∧ (mainA ⟨"postgres", "secret", "sps_db", "34.122.48.1"⟩ true
        (fun _ => false)).serves = true
    ∧ (∀ (cfgB : ConfigB) (pOk dOk oOk : Bool),
        initDBB cfgB pOk dOk oOk false ≠ .ok ()
        ∧ mainBServes cfgB pOk dOk oOk false = false
        ∧ initDBBPingAttempts cfgB pOk dOk oOk ≤ 1) :=
  ping_retry_bounds ⟨"postgres", "secret", "sps_db", "34.122.48.1"⟩
    (fun _ => false)
    ⟨by decide, by decide, by decide, by decide⟩ (fun _ => rfl)

/-- Claim C7: a second registration of a username that already has
exactly one row fails with 500 "failed to create user" (a constraint
violation surfaced generically, never a success), and the store still
holds exactly one row for that username afterwards. -/
theorem duplicate_second_register_fails
    (store : Store) (u p : String) (hu : u ≠ "") (hp : p ≠ "")
    (hrow : (store.filter (fun r => r.1 == u)).length = 1) :
    (signupHandler envOk store (.ok ⟨u, p⟩)).resp
        = ⟨500, [("error", "failed to create user")]⟩
    ∧ (signupHandler envOk store (.ok ⟨u, p⟩)).resp.status ≠ 200
    ∧ (signupHandler envOk store (.ok ⟨u, p⟩)).store = store
    ∧ ((signupHandler envOk store (.ok ⟨u, p⟩)).store.filter
          (fun r => r.1 == u)).length = 1 := by
  have hne : store.filter (fun r => r.1 == u) ≠ [] := by
    intro hnil
    rw [hnil] at hrow
    simp at hrow
  have hany : store.any (fun r => r.1 == u) = true := by
    rcases List.exists_mem_of_ne_nil _ hne with ⟨x, hx⟩
    have hx' := List.mem_filter.mp hx
    exact List.any_eq_true.mpr ⟨x, hx'.1, hx'.2⟩
  have hs := signupHandler_nonempty envOk store u p hu hp
  rw [hs]
  refine ⟨by simp [envOk, hany], by simp [envOk, hany], ?_, ?_⟩
  · simp [envOk, hany]
  · simpa [envOk, hany] using hrow

/-- Witness for C7: re-registering "alice". -/
theorem duplicate_second_register_fails_witness :
    (signupHandler envOk [("alice", bcryptHash "w")] (.ok ⟨"alice", "x"⟩)).resp
        = ⟨500, [("error", "failed to create user")]⟩
    ∧ (signupHandler envOk [("alice", bcryptHash "w")]
        (.ok ⟨"alice", "x"⟩)).resp.status ≠ 200
    ∧ (signupHandler envOk [("alice", bcryptHash "w")]
        (.ok ⟨"alice", "x"⟩)).store = [("alice", bcryptHash "w")]
    ∧ (((signupHandler envOk [("alice", bcryptHash "w")]
          (.ok ⟨"alice", "x"⟩)).store.filter
          (fun r => r.1 == "alice")).length = 1) :=
  duplicate_second_register_fails [("alice", bcryptHash "w")] "alice" "x"
    (by decide) (by decide) (by decide)

/-- Claim C8 counterexample: revision B's health endpoint is a constant
200 "ok" that never consults the database, so with the database
unreachable it still reports healthy rather than 503. -/
theorem health_revision_B_static_ok_counterexample :
    healthHandlerB = ⟨200, [("status", "ok")]⟩
    ∧ healthHandlerB.status ≠ 503 :=
  ⟨rfl, by decide⟩

/-- Claim C8 (amended): in revision A, a nil handle yields 503 "database
not connected" without any ping (timeout 0 = no ping context created),
and a failing ping yields 503 "database connection failed" with the error
text, the ping running under a caller-side 5-second context timeout.
Revision B's health endpoint ignores the database entirely. -/
theorem health_unreachable_db_unavailable (pingOk : Bool)
    (errText : String) :
    (healthHandlerA false pingOk errText).1
        = ⟨503, [("status", "database not connected")]⟩
    ∧ (healthHandlerA false pingOk errText).2 = 0
    ∧ (healthHandlerA true false errText).1
        = ⟨503, [("status", "database connection failed"),
            ("error", errText)]⟩
    ∧ (healthHandlerA true false errText).2 = 5
    ∧ (healthHandlerA true true errText).1 = ⟨200, [("status", "ok")]⟩
    ∧ healthHandlerB = ⟨200, [("status", "ok")]⟩ := by
  simp [healthHandlerA, healthHandlerB]

/-- Witness for C8 (amended) at a concrete ping error. -/
theorem health_unreachable_db_unavailable_witness :
    (healthHandlerA false false "dial timeout").1
        = ⟨503, [("status", "database not connected")]⟩
    ∧ (healthHandlerA false false "dial timeout").2 = 0
    ∧ (healthHandlerA true false "dial timeout").1
        = ⟨503, [("status", "database connection failed"),
            ("error", "dial timeout")]⟩
    ∧ (healthHandlerA true false "dial timeout").2 = 5
    ∧ (healthHandlerA true true "dial timeout").1
        = ⟨200, [("status", "ok")]⟩
    ∧ healthHandlerB = ⟨200, [("status", "ok")]⟩ :=
  health_unreachable_db_unavailable false "dial timeout"

/-- Claim C10: any failure of the store lookup - missing row or I/O
error alike - is answered with the same 401 "invalid username or
password" in both revisions, and neither revision's signin ever returns a
500-class status. -/
theorem signin_maps_all_lookup_failures_to_401
    (env : Env) (store : Store) (u p : String) (e : DBErr)
    (hu : u ≠ "") (hp : p ≠ "")
    (hfail : dbQueryRowScan env store u = .error e) :
    (signinHandler env store (.ok ⟨u, p⟩)).resp
        = ⟨401, [("error", "invalid username or password")]⟩
    ∧ (signinHandlerV2 env store (.ok ⟨u, p⟩)).resp
        = ⟨401, [("error", "invalid username or password")]⟩
    ∧ ∀ (body : Except String UserReq),
        (signinHandler env store body).resp.status ≠ 500
        ∧ (signinHandlerV2 env store body).resp.status ≠ 500 := by
  have h1 := signinHandler_nonempty env store u p hu hp
  rw [hfail] at h1
  refine ⟨by rw [h1], by rw [signinHandlerV2_eq, h1], fun body =>
    ⟨signin_status_ne_500 env store body, ?_⟩⟩
  rw [signinHandlerV2_eq]
  exact signin_status_ne_500 env store body

/-- Witness for C10: the row for "alice" exists but the lookup fails with
an I/O error (database outage) - still 401. -/
theorem signin_maps_all_lookup_failures_to_401_witness :
    (signinHandler ⟨false, false, true⟩ [("alice", bcryptHash "pw")]
        (.ok ⟨"alice", "pw"⟩)).resp
        = ⟨401, [("error", "invalid username or password")]⟩
    ∧ (signinHandlerV2 ⟨false, false, true⟩ [("alice", bcryptHash "pw")]
        (.ok ⟨"alice", "pw"⟩)).resp
        = ⟨401, [("error", "invalid username or password")]⟩
    ∧ ∀ (body : Except String UserReq),
        (signinHandler ⟨false, false, true⟩ [("alice", bcryptHash "pw")]
          body).resp.status ≠ 500
        ∧ (signinHandlerV2 ⟨false, false, true⟩ [("alice", bcryptHash "pw")]
          body).resp.status ≠ 500 :=
  signin_maps_all_lookup_failures_to_401 ⟨false, false, true⟩
    [("alice", bcryptHash "pw")] "alice" "pw" .ioError
    (by decide) (by decide) rfl

/-- Claim C9 counterexample: revision A does not forward the inbound body
unchanged and does validate against a schema.  For the inbound object
with the single unknown key "extra", the forwarded body is the
re-marshalled zero-valued four-key struct - a different JSON value (its
top-level keys differ) - and an object whose "countries" key holds a
number is rejected with 400 before anything is sent upstream. -/
theorem itinerary_body_rewritten_counterexample :
    (handleItineraryRequest (Json.obj [("extra", Json.bool true)])
        (some ⟨200, "OK"⟩)).sent
      = some ⟨upstreamURL, "application/json",
          marshalItineraryRequest ⟨none, ⟨"", "", ""⟩, ⟨"", "", ""⟩, none⟩⟩
    ∧ Json.topKeys
        (marshalItineraryRequest ⟨none, ⟨"", "", ""⟩, ⟨"", "", ""⟩, none⟩)
        ≠ Json.topKeys (Json.obj [("extra", Json.bool true)])
    ∧ marshalItineraryRequest ⟨none, ⟨"", "", ""⟩, ⟨"", "", ""⟩, none⟩
        ≠ Json.obj [("extra", Json.bool true)]
    ∧ (handleItineraryRequest (Json.obj [("countries", Json.num 5)])
        (some ⟨200, "OK"⟩)).response.status = 400
    ∧ (handleItineraryRequest (Json.obj [("countries", Json.num 5)])
        (some ⟨200, "OK"⟩)).sent = none := by
  refine ⟨rfl, by decide, ?_, rfl, rfl⟩
  intro h
  exact absurd (congrArg Json.topKeys h) (by decide)

/-- Claim C9 (amended): for every inbound itinerary payload that binds,
the Gateway posts the re-encoded (not byte-identical) decoded payload to
the fixed upstream URL with Content-Type application/json and relays the
upstream status code and body byte-for-byte to the caller; revision A
decodes through the typed four-field struct, revision B through a generic
map. -/
theorem itinerary_forwarding_behaviour
    (inbound inb : Json) (up : UpstreamResult) (r : ItineraryRequest)
    (fs : Option (List (String × Json)))
    (hbind : bindItineraryRequest inbound = .ok r)
    (hbindB : bindItineraryMap inb = .ok fs) :
    (handleItineraryRequest inbound (some up)).sent
      = some ⟨upstreamURL, "application/json", marshalItineraryRequest r⟩
    ∧ (handleItineraryRequest inbound (some up)).response
      = ⟨up.status, "application/json", up.respBody⟩
    ∧ (handleItineraryRequestV2 inb (some up)).sent
      = some ⟨upstreamURL, "application/json", marshalItineraryMap fs⟩
    ∧ (handleItineraryRequestV2 inb (some up)).response
      = ⟨up.status, "application/json", up.respBody⟩ := by
  refine ⟨?_, ?_, ?_, ?_⟩ <;>
    simp [handleItineraryRequest, handleItineraryRequestV2, hbind, hbindB]

/-- Witness for C9 (amended) at concrete payloads for both revisions. -/
theorem itinerary_forwarding_behaviour_witness :
    (handleItineraryRequest Json.null (some ⟨200, "OK"⟩)).sent
      = some ⟨upstreamURL, "application/json",
          marshalItineraryRequest ⟨none, ⟨"", "", ""⟩, ⟨"", "", ""⟩, none⟩⟩
    ∧ (handleItineraryRequest Json.null (some ⟨200, "OK"⟩)).response
      = ⟨200, "application/json", "OK"⟩
    ∧ (handleItineraryRequestV2 (Json.obj [("a", Json.num 1)])
        (some ⟨200, "OK"⟩)).sent
      = some ⟨upstreamURL, "application/json",
          marshalItineraryMap (some [("a", Json.num 1)])⟩
    ∧ (handleItineraryRequestV2 (Json.obj [("a", Json.num 1)])
        (some ⟨200, "OK"⟩)).response
      = ⟨200, "application/json", "OK"⟩ :=
  itinerary_forwarding_behaviour Json.null (Json.obj [("a", Json.num 1)])
    ⟨200, "OK"⟩ ⟨none, ⟨"", "", ""⟩, ⟨"", "", ""⟩, none⟩
    (some [("a", Json.num 1)]) rfl rfl

end SPS
